import Mathlib

/-
  Verification of the wind-farm O&M analytical pipeline.

  Shallow embedding of the pipeline core:
    - Data Cleaner                (src/tools/data_loader.py, load_and_clean_data)
    - KPI & Power-Curve Engine    (src/tools/performance_analyst.py)
    - Fault Diagnosis Engine      (src/tools/fault_diagnosis.py)
    - Predictive Health Engine    (src/tools/predictive_maintainance.py)

  Machine floats are modelled by rationals (ℚ); a possibly-missing (NaN)
  numeric value is modelled by Option ℚ, and every comparison against a
  missing value is false, matching IEEE/NumPy semantics of NaN comparisons.
-/

namespace WindFarm

/- Batteries marks the Rat field operations irreducible; make them
   transparent so that concrete runs of the pipeline evaluate by decide. -/
unseal Rat.add Rat.mul Rat.sub Rat.inv

/- ===================== Data Cleaner ======================================
   Embeds load_and_clean_data (src/tools/data_loader.py lines 40-44):
   sort by (turbine_id, timestamp), then
   df[numeric_cols].interpolate(method="linear", limit=3, limit_direction="both")
   applied column-wise over the WHOLE sorted frame (not per turbine group).
   One numeric column is carried per row; interpolation is column-wise and
   identical for each numeric column. -/

structure RawRow where
  turbine_id : String
  timestamp : Int
  value : Option ℚ
  deriving DecidableEq

/-- Lexicographic sort key of df.sort_values(["turbine_id", "timestamp"]).
    String order is compared on the character lists, which is exactly the
    order underlying String.lt. -/
def rawLe (a b : RawRow) : Prop :=
  a.turbine_id.data < b.turbine_id.data
    ∨ (a.turbine_id = b.turbine_id ∧ a.timestamp ≤ b.timestamp)

instance : DecidableRel rawLe := fun a b => by unfold rawLe; infer_instance

/-- Index and value of the last valid (non-missing) observation strictly before i. -/
def prevValid (xs : List (Option ℚ)) (i : Nat) : Option (Nat × ℚ) :=
  ((List.range i).reverse).findSome? (fun j => (xs.getD j none).map (fun v => (j, v)))

/-- Index and value of the first valid observation strictly after i. -/
def nextValid (xs : List (Option ℚ)) (i : Nat) : Option (Nat × ℚ) :=
  (List.range xs.length).findSome? (fun j =>
    if i < j then (xs.getD j none).map (fun v => (j, v)) else none)

/-- Candidate fill value of pandas method="linear" at a missing position:
    linear on the integer index between the surrounding valid observations,
    flat beyond the first/last valid observation. -/
def interpValue (p n : Option (Nat × ℚ)) (i : Nat) : Option ℚ :=
  match p, n with
  | some (j, vj), some (k, vk) => some (vj + (vk - vj) * (((i : ℚ) - (j : ℚ)) / ((k : ℚ) - (j : ℚ))))
  | some (_, vj), none => some vj
  | none, some (_, vk) => some vk
  | none, none => none

/-- The limit mask of interpolate(limit, limit_direction="both"): a missing
    position is filled iff it lies within `limit` of a valid observation on
    at least one side. -/
def withinLimit (limit : Nat) (p n : Option (Nat × ℚ)) (i : Nat) : Bool :=
  (match p with | some (j, _) => decide (i - j ≤ limit) | none => false) ||
  (match n with | some (k, _) => decide (k - i ≤ limit) | none => false)

def interpAt (limit : Nat) (xs : List (Option ℚ)) (i : Nat) : Option ℚ :=
  match xs.getD i none with
  | some v => some v
  | none =>
    let p := prevValid xs i
    let n := nextValid xs i
    if withinLimit limit p n i then interpValue p n i else none

/-- Column-wise pandas Series.interpolate(method="linear", limit, limit_direction="both"). -/
def interpolateCol (limit : Nat) (xs : List (Option ℚ)) : List (Option ℚ) :=
  (List.range xs.length).map (interpAt limit xs)

/-- load_and_clean_data, numeric part: global sort by (turbine_id, timestamp)
    followed by global column-wise interpolation with limit=3, direction both. -/
def load_and_clean_data (rows : List RawRow) : List RawRow :=
  let sorted := List.insertionSort rawLe rows
  let col := interpolateCol 3 (sorted.map (fun r => r.value))
  (sorted.zip col).map (fun rc => { rc.1 with value := rc.2 })

/- ===================== KPI & Power-Curve Engine ========================== -/

def RATED_POWER_KW : ℚ := 2000
def INTERVAL_MIN : ℚ := 10

/-- One cleaned reading, as consumed by compute_farm_kpis; timestamp in seconds. -/
structure KpiRow where
  turbine_id : String
  timestamp_s : ℚ
  power_kw : ℚ
  deriving DecidableEq

/-- energy_kwh per row = power_kw * (INTERVAL_MIN / 60). -/
def energy_kwh (r : KpiRow) : ℚ := r.power_kw * (INTERVAL_MIN / 60)

def total_energy_kwh (rows : List KpiRow) : ℚ := (rows.map energy_kwh).sum

/-- (df.timestamp.max() - df.timestamp.min()).total_seconds() / 3600. -/
def time_span_hours : List KpiRow → ℚ
  | [] => 0
  | r :: rs =>
    ((rs.map (fun x => x.timestamp_s)).foldl max r.timestamp_s
      - (rs.map (fun x => x.timestamp_s)).foldl min r.timestamp_s) / 3600

/-- df.turbine_id.nunique(). -/
def n_turbines (rows : List KpiRow) : Nat := ((rows.map (fun r => r.turbine_id)).dedup).length

/-- capacity_factor = total_energy_kwh / (installed_kw * time_span_hours) with
    installed_kw = n_turbines * RATED_POWER_KW (compute_farm_kpis lines 38-45). -/
def capacity_factor (rows : List KpiRow) : Option ℚ :=
  if rows.isEmpty then none
  else some (total_energy_kwh rows /
    (((n_turbines rows : ℚ) * RATED_POWER_KW) * time_span_hours rows))

/- Underperformance detection (detect_underperformance, lines 122-151). -/

/-- Python round(x, 2): nearest multiple of 1/100, ties to even. -/
def round2 (x : ℚ) : ℚ :=
  let y := x * 100
  let f : Int := Int.floor y
  let frac := y - (f : ℚ)
  let n : Int :=
    if frac < 1/2 then f
    else if 1/2 < frac then f + 1
    else if f % 2 = 0 then f else f + 1
  (n : ℚ) / 100

/-- Python min(range(n), key=g): the FIRST index attaining the minimum of g,
    as produced by a left-to-right scan keeping the incumbent on ties. -/
def minIdxBy (g : Nat → ℚ) (n : Nat) : Nat :=
  (List.range n).foldl (fun best i => if g i < g best then i else best) 0

/-- min(range(len(centers)), key=lambda i: abs(centers[i] - q)): the first
    index of a center at minimal absolute distance from q. -/
def nearest_idx (centers : List ℚ) (q : ℚ) : Nat :=
  minIdxBy (fun i => |centers.getD i 0 - q|) centers.length

/-- expected_power (performance_analyst.py lines 135-140): for a non-NaN wind
    speed, scan the ascending-sorted rounded bin centers for the one nearest to
    round(ws, 2) and return that bin's mean power.  pc is the list of
    (ws_center, mean_power_kw) pairs; the Python dict built by zip keeps the
    last value on a duplicate key, hence the lookup on the reversed list. -/
def expected_power (pc : List (ℚ × ℚ)) (ws : Option ℚ) : Option ℚ :=
  match ws with
  | none => none
  | some w =>
    let pcMap := pc.map (fun b => (round2 b.1, b.2))
    let centers := List.insertionSort (fun a b => a ≤ b) (pcMap.map Prod.fst)
    if centers.isEmpty then none
    else
      let i := nearest_idx centers (round2 w)
      List.lookup (centers.getD i 0) pcMap.reverse

/-- rel_diff = (expected_power_kw - power_kw) / (expected_power_kw + 1e-6). -/
def rel_diff (expected actual : ℚ) : ℚ := (expected - actual) / (expected + 1/1000000)

/-- underperf_flag = rel_diff > threshold (0.2); a NaN expected power compares
    false, so the row is never flagged. -/
def row_underperf_flag (expected : Option ℚ) (actual : ℚ) : Bool :=
  match expected with
  | some e => decide (1/5 < rel_diff e actual)
  | none => false

/- ===================== Fault Diagnosis Engine ============================ -/

def GEAR_OIL_TEMP_LIMIT : ℚ := 85
def VIB_HIGH_LIMIT : ℚ := 3/2
def YAW_LIMIT_FAULT : ℚ := 15
def PITCH_STUCK_ANGLE : ℚ := 1/2

/-- One merged row after the fillna backfill, as consumed by diagnose_row. -/
structure DiagRow where
  gear_oil_temp_c : ℚ
  vibration_g_rms : ℚ
  pitch_angle_deg : ℚ
  power_kw : ℚ
  expected_power_kw : ℚ
  yaw_misalignment_deg : ℚ
  underperf_flag : Bool
  grid_event : String
  deriving DecidableEq

def detect_gearbox_fault (row : DiagRow) : Option String :=
  if GEAR_OIL_TEMP_LIMIT < row.gear_oil_temp_c then some ("GEARBOX_OVERHEAT") else none

def detect_vibration_fault (row : DiagRow) : Option String :=
  if VIB_HIGH_LIMIT < row.vibration_g_rms then some ("HIGH_VIBRATION") else none

def detect_pitch_stuck (row : DiagRow) : Option String :=
  if row.pitch_angle_deg < PITCH_STUCK_ANGLE ∧ row.power_kw < row.expected_power_kw * (3/10)
  then some ("PITCH_STUCK") else none

def detect_yaw_misalignment (row : DiagRow) : Option String :=
  if YAW_LIMIT_FAULT < |row.yaw_misalignment_deg| ∧ row.underperf_flag = true
  then some ("YAW_MISALIGNMENT") else none

def detect_grid_event (row : DiagRow) : Option String :=
  if row.grid_event ≠ "NA" then some ("GRID_EVENT") else none

/-- The `faults` list accumulated by diagnose_row (fault_diagnosis.py lines
    76-92): the five detectors evaluated in the fixed order gearbox,
    vibration, pitch, yaw, grid, keeping the matched labels in that order. -/
def fault_labels (row : DiagRow) : List String :=
  [detect_gearbox_fault row, detect_vibration_fault row,
   detect_pitch_stuck row, detect_yaw_misalignment row,
   detect_grid_event row].filterMap id

/-- diagnose_row line 94: matched labels joined with comma+space; sentinel
    NO_FAULT when none match. -/
def diagnose_row (row : DiagRow) : String :=
  if (fault_labels row).isEmpty then "NO_FAULT"
  else String.intercalate ", " (fault_labels row)

/-- A cleaned SCADA reading, left side of the run_diagnosis merge. -/
structure ScadaRow where
  timestamp : Int
  turbine_id : String
  power_kw : ℚ
  gear_oil_temp_c : ℚ
  vibration_g_rms : ℚ
  pitch_angle_deg : ℚ
  yaw_misalignment_deg : ℚ
  grid_event : String
  deriving DecidableEq

/-- An underperformance event, right side of the run_diagnosis merge. -/
structure UnderperfRow where
  timestamp : Int
  turbine_id : String
  expected_power_kw : ℚ
  underperf_flag : Bool
  deriving DecidableEq

def matchKey (s : ScadaRow) (u : UnderperfRow) : Bool :=
  u.timestamp == s.timestamp && u.turbine_id == s.turbine_id

/-- The rows contributed by one left row to the pandas left merge on
    (timestamp, turbine_id): one output row per matching right row, or a
    single row with missing merge columns when nothing matches.  No
    duplicate-key validation is performed. -/
def mergeRow (underperf : List UnderperfRow) (s : ScadaRow) :
    List (ScadaRow × Option ℚ × Option Bool) :=
  match underperf.filter (matchKey s) with
  | [] => [(s, none, none)]
  | ms => ms.map (fun u => (s, some u.expected_power_kw, some u.underperf_flag))

/-- The fillna backfill of run_diagnosis lines 108-109: missing
    expected_power_kw becomes the row's own power_kw, missing underperf_flag
    becomes false. -/
def fill_row (p : ScadaRow × Option ℚ × Option Bool) : DiagRow :=
  { gear_oil_temp_c := p.1.gear_oil_temp_c
    vibration_g_rms := p.1.vibration_g_rms
    pitch_angle_deg := p.1.pitch_angle_deg
    power_kw := p.1.power_kw
    expected_power_kw := p.2.1.getD p.1.power_kw
    yaw_misalignment_deg := p.1.yaw_misalignment_deg
    underperf_flag := p.2.2.getD false
    grid_event := p.1.grid_event }

/-- run_diagnosis (fault_diagnosis.py lines 96-116): left merge, backfill,
    then per-row diagnosis. -/
def run_diagnosis (scada : List ScadaRow) (underperf : List UnderperfRow) :
    List (DiagRow × String) :=
  ((scada.map (mergeRow underperf)).flatten).map
    (fun p => (fill_row p, diagnose_row (fill_row p)))

/- ===================== Predictive Health Engine ========================== -/

def WINDOW_1D : Nat := 144
def OIL_SLOPE_LIMIT : ℚ := 8
def VIB_SLOPE_LIMIT : ℚ := 2/5
def YAW_LIMIT_HEALTH : ℚ := 20
def OIL_ABSOLUTE_LIMIT : ℚ := 85
def VIB_ABSOLUTE_LIMIT : ℚ := 3/2

/-- A possibly-NaN value compared against a limit: NaN > limit is false. -/
def optGt (x : Option ℚ) (limit : ℚ) : Bool :=
  match x with
  | some v => decide (limit < v)
  | none => false

/-- pandas Series.diff(n): value at row i minus value n rows earlier, missing
    for the first n rows and whenever either operand is missing. -/
def diffSeries (n : Nat) (xs : List (Option ℚ)) : List (Option ℚ) :=
  (List.range xs.length).map (fun i =>
    if n ≤ i then
      match xs.getD i none, xs.getD (i - n) none with
      | some a, some b => some (a - b)
      | _, _ => none
    else none)

/-- One row of a per-turbine group, fields used by trends and scoring. -/
structure CleanRow where
  timestamp : Int
  gear_oil_temp_c : Option ℚ
  vibration_g_rms : Option ℚ
  yaw_misalignment_deg : Option ℚ
  deriving DecidableEq

def cleanLe (a b : CleanRow) : Prop := a.timestamp ≤ b.timestamp

instance : DecidableRel cleanLe := fun a b => by unfold cleanLe; infer_instance

/-- g.sort_values("timestamp") inside compute_trends. -/
def sortByTimestamp (g : List CleanRow) : List CleanRow := List.insertionSort cleanLe g

/-- The fields of the latest row consulted by compute_health_score. -/
structure LatestRow where
  gear_oil_temp_c : Option ℚ
  oil_slope : Option ℚ
  vibration_g_rms : Option ℚ
  vib_slope : Option ℚ
  yaw_misalignment_deg : Option ℚ
  deriving DecidableEq

/-- compute_health_score (predictive_maintainance.py lines 51-67): start at
    100, subtract each triggered deduction in turn, clamp below at 0.  The yaw
    test is on the SIGNED value, exactly as in the source (line 64 has no abs). -/
def compute_health_score (latest_row : LatestRow) : Int :=
  let s1 : Int := if optGt latest_row.gear_oil_temp_c OIL_ABSOLUTE_LIMIT then 100 - 30 else 100
  let s2 : Int := if optGt latest_row.oil_slope OIL_SLOPE_LIMIT then s1 - 20 else s1
  let s3 : Int := if optGt latest_row.vibration_g_rms VIB_ABSOLUTE_LIMIT then s2 - 30 else s2
  let s4 : Int := if optGt latest_row.vib_slope VIB_SLOPE_LIMIT then s3 - 20 else s3
  let s5 : Int := if optGt latest_row.yaw_misalignment_deg YAW_LIMIT_HEALTH then s4 - 10 else s4
  max s5 0

/-- detect_warnings line 47: yaw_warning = yaw_misalignment_deg > YAW_LIMIT
    (signed, no abs in the source). -/
def yaw_warning (r : LatestRow) : Bool := optGt r.yaw_misalignment_deg YAW_LIMIT_HEALTH

/-- The health score of the first four deductions only (everything before the
    yaw test), unclamped. -/
def health_pre_yaw (latest_row : LatestRow) : Int :=
  let s1 : Int := if optGt latest_row.gear_oil_temp_c OIL_ABSOLUTE_LIMIT then 100 - 30 else 100
  let s2 : Int := if optGt latest_row.oil_slope OIL_SLOPE_LIMIT then s1 - 20 else s1
  let s3 : Int := if optGt latest_row.vibration_g_rms VIB_ABSOLUTE_LIMIT then s2 - 30 else s2
  if optGt latest_row.vib_slope VIB_SLOPE_LIMIT then s3 - 20 else s3

/-- The clamped score with no slope data and no yaw deduction applicable,
    i.e. only the absolute oil, vibration and yaw tests. -/
def score_without_slopes (r : CleanRow) : Int :=
  max (100 - ((if optGt r.gear_oil_temp_c OIL_ABSOLUTE_LIMIT then 30 else 0)
      + (if optGt r.vibration_g_rms VIB_ABSOLUTE_LIMIT then 30 else 0)
      + (if optGt r.yaw_misalignment_deg YAW_LIMIT_HEALTH then 10 else 0))) 0

/-- The per-turbine loop of run_predictive_agent for one group: sort by
    timestamp, 1-day finite differences via Series.diff(144), score the most
    recent row.  none on an empty group (groupby never yields one). -/
def latest_health (g : List CleanRow) : Option Int :=
  let s := sortByTimestamp g
  match s.getLast? with
  | none => none
  | some last =>
    let oilS := ((diffSeries WINDOW_1D (s.map (fun r => r.gear_oil_temp_c))).getLast?).join
    let vibS := ((diffSeries WINDOW_1D (s.map (fun r => r.vibration_g_rms))).getLast?).join
    some (compute_health_score
      { gear_oil_temp_c := last.gear_oil_temp_c
        oil_slope := oilS
        vibration_g_rms := last.vibration_g_rms
        vib_slope := vibS
        yaw_misalignment_deg := last.yaw_misalignment_deg })

/- ===================== Theorems ========================================== -/

/-- C1: the Data Cleaner interpolates the numeric columns globally over the
    (turbine_id, timestamp)-sorted frame, so the missing first sample of
    turbine B is filled using turbine A's neighboring value: with B's rows
    fixed, changing A's values changes B's interpolated transition row (15
    versus 25).  Moreover a run of 4 consecutive missing samples is filled
    completely (limit=3 with limit_direction both fills from each side), so
    runs longer than 3 do not all remain null; only the centre of a run of 7
    survives.  This evaluates the code at the failing inputs of the claim. -/
theorem interpolation_crosses_turbine_boundary :
    load_and_clean_data
        [⟨"A", 0, some 10⟩, ⟨"A", 1, some 10⟩, ⟨"B", 0, none⟩,
         ⟨"B", 1, some 20⟩, ⟨"B", 2, some 20⟩] =
      [⟨"A", 0, some 10⟩, ⟨"A", 1, some 10⟩, ⟨"B", 0, some 15⟩,
       ⟨"B", 1, some 20⟩, ⟨"B", 2, some 20⟩]
    ∧ load_and_clean_data
        [⟨"A", 0, some 30⟩, ⟨"A", 1, some 30⟩, ⟨"B", 0, none⟩,
         ⟨"B", 1, some 20⟩, ⟨"B", 2, some 20⟩] =
      [⟨"A", 0, some 30⟩, ⟨"A", 1, some 30⟩, ⟨"B", 0, some 25⟩,
       ⟨"B", 1, some 20⟩, ⟨"B", 2, some 20⟩]
    ∧ interpolateCol 3 [some 0, none, none, none, none, some 10] =
      [some 0, some 2, some 4, some 6, some 8, some 10]
    ∧ interpolateCol 3 [some 0, none, none, none, none, none, none, none, some 16] =
      [some 0, some 2, some 4, some 6, none, some 10, some 12, some 14, some 16] := by
  refine ⟨?_, ?_, ?_, ?_⟩ <;> decide

/-- C5: a duplicated (timestamp, turbine_id) key on the underperformance side
    of the run_diagnosis merge is NOT surfaced as an error: the pandas-style
    left merge silently emits one output row per matching right row, so a
    single cleaned reading with two matching events yields two output rows. -/
theorem merge_duplicate_keys_not_surfaced :
    (run_diagnosis [⟨0, "T1", 100, 50, 1, 10, 0, "NA"⟩]
        [⟨0, "T1", 500, true⟩, ⟨0, "T1", 600, false⟩]).length = 2
    ∧ (run_diagnosis [⟨0, "T1", 100, 50, 1, 10, 0, "NA"⟩]
        [⟨0, "T1", 500, true⟩, ⟨0, "T1", 600, false⟩]).length ≠ 1 := by
  refine ⟨?_, ?_⟩ <;> decide

/-- C6 counterexample: the yaw criterion of the Predictive Health Engine is
    NOT symmetric in sign.  A latest row with yaw_misalignment_deg = -25 has
    absolute misalignment above 20 yet keeps score 100 (no -10 deduction) and
    raises no yaw warning, refuting the claim at this concrete input. -/
theorem yaw_criterion_not_symmetric :
    YAW_LIMIT_HEALTH < |(-25 : ℚ)|
    ∧ compute_health_score ⟨some 60, none, some 1, none, some (-25)⟩ = 100
    ∧ compute_health_score ⟨some 60, none, some 1, none, some (-25)⟩ ≠ 100 - 10
    ∧ yaw_warning ⟨some 60, none, some 1, none, some (-25)⟩ = false := by
  refine ⟨?_, ?_, ?_, ?_⟩ <;> decide

/-- C6 amended: the yaw deduction and the per-row yaw warning are triggered by
    the SIGNED yaw misalignment exceeding 20 degrees, not by its absolute
    value: the -10 deduction applies exactly when yaw_misalignment_deg > 20,
    so a latest row with yaw_misalignment_deg = -25 incurs no deduction. -/
theorem yaw_deduction_signed :
    (∀ (r : LatestRow) (v : ℚ), r.yaw_misalignment_deg = some v →
      ((yaw_warning r = true ↔ YAW_LIMIT_HEALTH < v)
        ∧ (YAW_LIMIT_HEALTH < v →
            compute_health_score r = max (health_pre_yaw r - 10) 0)
        ∧ (v ≤ YAW_LIMIT_HEALTH →
            compute_health_score r = max (health_pre_yaw r) 0)))
    ∧ compute_health_score ⟨some 60, none, some 1, none, some (-25)⟩ = 100 := by
  constructor
  · intro r v hv
    refine ⟨?_, ?_, ?_⟩
    · simp [yaw_warning, optGt, hv]
    · intro h
      simp [compute_health_score, health_pre_yaw, optGt, hv, h]
    · intro h
      simp [compute_health_score, health_pre_yaw, optGt, hv, not_lt.mpr h]
  · decide

/-- C6 amended, witness: instantiated at a latest row with yaw -25; the
    warning is off and no deduction is applied. -/
theorem yaw_deduction_signed_witness :
    (yaw_warning ⟨some 60, none, some 1, none, some (-25)⟩ = true ↔ YAW_LIMIT_HEALTH < (-25 : ℚ))
    ∧ compute_health_score ⟨some 60, none, some 1, none, some (-25)⟩ =
        max (health_pre_yaw ⟨some 60, none, some 1, none, some (-25)⟩) 0 := by
  have h := yaw_deduction_signed.1 ⟨some 60, none, some 1, none, some (-25)⟩ (-25) rfl
  exact ⟨h.1, h.2.2 (by norm_num [YAW_LIMIT_HEALTH])⟩

/-- C7: the health score equals 100 minus the sum of the triggered deductions
    (-30 oil temp, -20 oil slope, -30 vibration, -20 vibration slope, -10 yaw),
    clamped below at 0, and always lies in [0, 100]; the fully-failing latest
    row (oil 90, oil slope 10, vibration 2, vibration slope 1/2, yaw 25)
    scores exactly 0. -/
theorem health_score_clamped_sum :
    (∀ r : LatestRow,
      compute_health_score r =
        max (100 - ((if optGt r.gear_oil_temp_c OIL_ABSOLUTE_LIMIT then 30 else 0)
          + (if optGt r.oil_slope OIL_SLOPE_LIMIT then 20 else 0)
          + (if optGt r.vibration_g_rms VIB_ABSOLUTE_LIMIT then 30 else 0)
          + (if optGt r.vib_slope VIB_SLOPE_LIMIT then 20 else 0)
          + (if optGt r.yaw_misalignment_deg YAW_LIMIT_HEALTH then 10 else 0))) 0
      ∧ 0 ≤ compute_health_score r ∧ compute_health_score r ≤ 100)
    ∧ compute_health_score ⟨some 90, some 10, some 2, some (1/2), some 25⟩ = 0 := by
  constructor
  · intro r
    cases h1 : optGt r.gear_oil_temp_c OIL_ABSOLUTE_LIMIT <;>
    cases h2 : optGt r.oil_slope OIL_SLOPE_LIMIT <;>
    cases h3 : optGt r.vibration_g_rms VIB_ABSOLUTE_LIMIT <;>
    cases h4 : optGt r.vib_slope VIB_SLOPE_LIMIT <;>
    cases h5 : optGt r.yaw_misalignment_deg YAW_LIMIT_HEALTH <;>
    simp [compute_health_score, h1, h2, h3, h4, h5]
  · decide

/-- C3: rel_diff is (expected - actual) / (expected + 1e-6); the flag is true
    exactly when rel_diff is strictly greater than 0.20, so rel_diff exactly
    1/5 is not flagged while 0.2000001 is; a NaN wind speed yields a NaN
    expected power and such a row is never flagged. -/
theorem underperf_flag_strict_threshold :
    (∀ e a : ℚ, rel_diff e a = (e - a) / (e + 1/1000000))
    ∧ (∀ e a : ℚ, row_underperf_flag (some e) a = true ↔ 1/5 < rel_diff e a)
    ∧ (∀ e a : ℚ, rel_diff e a = 1/5 → row_underperf_flag (some e) a = false)
    ∧ (∀ e a : ℚ, rel_diff e a = 2000001/10000000 → row_underperf_flag (some e) a = true)
    ∧ (∀ pc : List (ℚ × ℚ), expected_power pc none = none)
    ∧ (∀ a : ℚ, row_underperf_flag none a = false) := by
  refine ⟨fun e a => rfl, fun e a => ?_, fun e a h => ?_, fun e a h => ?_,
    fun pc => rfl, fun a => rfl⟩
  · simp [row_underperf_flag]
  · simp [row_underperf_flag, h]
  · simp only [row_underperf_flag, h]
    norm_num

/-- C3 witness: concrete rows sitting exactly at and just above the
    threshold; the first is not flagged, the second is. -/
theorem underperf_flag_strict_threshold_witness :
    row_underperf_flag (some 1) (3999999/5000000) = false
    ∧ row_underperf_flag (some 1) (7999996999999/10000000000000) = true := by
  refine ⟨underperf_flag_strict_threshold.2.2.1 1 _ ?_,
          underperf_flag_strict_threshold.2.2.2.1 1 _ ?_⟩ <;>
    norm_num [rel_diff]

/-- C4: diagnose_row yields the sentinel NO_FAULT exactly when none of the
    five rules matches; each matching rule contributes its label to the
    comma+space joined diagnosis (co-occurring faults are not suppressed, in
    the fixed order gearbox, vibration, pitch, yaw, grid); the row with
    gear_oil_temp_c = 90 and vibration_g_rms = 2 and no other match yields
    "GEARBOX_OVERHEAT, HIGH_VIBRATION". -/
theorem diagnose_row_joins_all_matches :
    (∀ row : DiagRow, diagnose_row row = "NO_FAULT" ↔
        (¬ GEAR_OIL_TEMP_LIMIT < row.gear_oil_temp_c
          ∧ ¬ VIB_HIGH_LIMIT < row.vibration_g_rms
          ∧ ¬(row.pitch_angle_deg < PITCH_STUCK_ANGLE
              ∧ row.power_kw < row.expected_power_kw * (3/10))
          ∧ ¬(YAW_LIMIT_FAULT < |row.yaw_misalignment_deg| ∧ row.underperf_flag = true)
          ∧ ¬ row.grid_event ≠ "NA"))
    ∧ diagnose_row ⟨90, 2, 10, 100, 100, 0, false, "NA"⟩ = "GEARBOX_OVERHEAT, HIGH_VIBRATION"
    ∧ (∀ row : DiagRow, diagnose_row row =
        if (fault_labels row).isEmpty then "NO_FAULT"
        else String.intercalate ", " (fault_labels row))
    ∧ (∀ row : DiagRow, GEAR_OIL_TEMP_LIMIT < row.gear_oil_temp_c →
        "GEARBOX_OVERHEAT" ∈ fault_labels row)
    ∧ (∀ row : DiagRow, VIB_HIGH_LIMIT < row.vibration_g_rms →
        "HIGH_VIBRATION" ∈ fault_labels row)
    ∧ (∀ row : DiagRow, row.pitch_angle_deg < PITCH_STUCK_ANGLE
          ∧ row.power_kw < row.expected_power_kw * (3/10) →
        "PITCH_STUCK" ∈ fault_labels row)
    ∧ (∀ row : DiagRow, YAW_LIMIT_FAULT < |row.yaw_misalignment_deg| ∧ row.underperf_flag = true →
        "YAW_MISALIGNMENT" ∈ fault_labels row)
    ∧ (∀ row : DiagRow, row.grid_event ≠ "NA" →
        "GRID_EVENT" ∈ fault_labels row) := by
  refine ⟨?_, by decide, fun row => rfl, ?_, ?_, ?_, ?_, ?_⟩ <;> intro row <;>
    try intro h
  all_goals
    simp only [diagnose_row, fault_labels, detect_gearbox_fault, detect_vibration_fault,
      detect_pitch_stuck, detect_yaw_misalignment, detect_grid_event]
  all_goals
    by_cases h1 : GEAR_OIL_TEMP_LIMIT < row.gear_oil_temp_c <;>
    by_cases h2 : VIB_HIGH_LIMIT < row.vibration_g_rms <;>
    by_cases h3 : row.pitch_angle_deg < PITCH_STUCK_ANGLE
        ∧ row.power_kw < row.expected_power_kw * (3/10) <;>
    by_cases h4 : YAW_LIMIT_FAULT < |row.yaw_misalignment_deg| ∧ row.underperf_flag = true <;>
    by_cases h5 : row.grid_event ≠ "NA" <;>
    simp_all <;> decide

/-- C4 witness: the label-membership implications instantiated at concrete
    rows where several rules fire together. -/
theorem diagnose_row_joins_all_matches_witness :
    "GEARBOX_OVERHEAT" ∈ fault_labels ⟨90, 2, 10, 100, 100, 0, false, "GRID"⟩
    ∧ "HIGH_VIBRATION" ∈ fault_labels ⟨90, 2, 10, 100, 100, 0, false, "GRID"⟩
    ∧ "PITCH_STUCK" ∈ fault_labels ⟨90, 2, 0, 10, 100, 20, true, "GRID"⟩
    ∧ "YAW_MISALIGNMENT" ∈ fault_labels ⟨90, 2, 0, 10, 100, 20, true, "GRID"⟩
    ∧ "GRID_EVENT" ∈ fault_labels ⟨90, 2, 0, 10, 100, 20, true, "GRID"⟩
    ∧ (diagnose_row ⟨50, 1, 10, 100, 100, 0, false, "NA"⟩ = "NO_FAULT" ↔
        (¬ GEAR_OIL_TEMP_LIMIT < (50:ℚ) ∧ ¬ VIB_HIGH_LIMIT < (1:ℚ)
          ∧ ¬((10:ℚ) < PITCH_STUCK_ANGLE ∧ (100:ℚ) < (100:ℚ) * (3/10))
          ∧ ¬(YAW_LIMIT_FAULT < |(0:ℚ)| ∧ false = true) ∧ ¬("NA" ≠ "NA"))) := by
  refine ⟨diagnose_row_joins_all_matches.2.2.2.1 _ (by norm_num [GEAR_OIL_TEMP_LIMIT]),
    diagnose_row_joins_all_matches.2.2.2.2.1 _ (by norm_num [VIB_HIGH_LIMIT]),
    diagnose_row_joins_all_matches.2.2.2.2.2.1 _ ⟨by norm_num [PITCH_STUCK_ANGLE], by norm_num⟩,
    diagnose_row_joins_all_matches.2.2.2.2.2.2.1 _ ⟨by norm_num [YAW_LIMIT_FAULT], rfl⟩,
    diagnose_row_joins_all_matches.2.2.2.2.2.2.2 _ (by decide),
    diagnose_row_joins_all_matches.1 _⟩

/- Facts about minIdxBy, the first-minimal index produced by Python min. -/

theorem minIdxBy_succ (g : Nat → ℚ) (n : Nat) :
    minIdxBy g (n + 1) = if g n < g (minIdxBy g n) then n else minIdxBy g n := by
  unfold minIdxBy
  rw [List.range_succ, List.foldl_append]
  rfl

theorem minIdxBy_lt (g : Nat → ℚ) : ∀ n, 0 < n → minIdxBy g n < n := by
  intro n
  induction n with
  | zero => omega
  | succ k ih =>
    intro _
    rw [minIdxBy_succ]
    by_cases hk : 0 < k
    · split
      · omega
      · exact Nat.lt_succ_of_lt (ih hk)
    · have hk0 : k = 0 := by omega
      subst hk0
      have h0 : minIdxBy g 0 = 0 := rfl
      split <;> omega

theorem minIdxBy_le_all (g : Nat → ℚ) : ∀ n, ∀ i, i < n → g (minIdxBy g n) ≤ g i := by
  intro n
  induction n with
  | zero => intro i hi; exact absurd hi (Nat.not_lt_zero i)
  | succ k ih =>
    intro i hi
    rw [minIdxBy_succ]
    rcases Nat.lt_succ_iff_lt_or_eq.mp hi with hik | hik
    · split
      · next h => exact le_of_lt (lt_of_lt_of_le h (ih i hik))
      · next _ => exact ih i hik
    · subst hik
      split
      · next _ => exact le_refl _
      · next h => exact not_lt.mp h

theorem minIdxBy_first (g : Nat → ℚ) : ∀ n, ∀ j, j < minIdxBy g n → g (minIdxBy g n) < g j := by
  intro n
  induction n with
  | zero =>
    intro j hj
    have h0 : minIdxBy g 0 = 0 := rfl
    rw [h0] at hj
    exact absurd hj (Nat.not_lt_zero j)
  | succ k ih =>
    intro j hj
    rw [minIdxBy_succ] at hj ⊢
    by_cases h : g k < g (minIdxBy g k)
    · rw [if_pos h] at hj ⊢
      exact lt_of_lt_of_le h (minIdxBy_le_all g k j hj)
    · rw [if_neg h] at hj ⊢
      exact ih j hj

set_option maxHeartbeats 1000000 in
/-- C2: for every query q and every non-empty ascending-sorted list of
    centers, the selected index is in range, its center attains the minimal
    absolute difference from q, every earlier index has strictly larger
    difference (so the selected index is the first minimal one), and on any
    exact tie the selected center is the lower one; in particular, for centers
    [1, 2, 3] at wind speed 1.5 the engine returns the power of center 1. -/
theorem nearest_bin_first_minimal :
    (∀ (centers : List ℚ) (q : ℚ), centers ≠ [] → centers.Sorted (· ≤ ·) →
      (nearest_idx centers q < centers.length
        ∧ (∀ j, j < centers.length →
            |centers.getD (nearest_idx centers q) 0 - q| ≤ |centers.getD j 0 - q|)
        ∧ (∀ j, j < nearest_idx centers q →
            |centers.getD (nearest_idx centers q) 0 - q| < |centers.getD j 0 - q|)
        ∧ (∀ j, j < centers.length →
            |centers.getD j 0 - q| = |centers.getD (nearest_idx centers q) 0 - q| →
            centers.getD (nearest_idx centers q) 0 ≤ centers.getD j 0)))
    ∧ expected_power [(1, 10), (2, 20), (3, 30)] (some (3/2)) = some 10 := by
  constructor
  · intro centers q hne hsorted
    simp only [nearest_idx]
    have hlen : 0 < centers.length := List.length_pos.mpr hne
    have hm := minIdxBy_lt (fun i => |centers.getD i 0 - q|) centers.length hlen
    refine ⟨hm,
      fun j hj => minIdxBy_le_all (fun i => |centers.getD i 0 - q|) centers.length j hj,
      fun j hj => minIdxBy_first (fun i => |centers.getD i 0 - q|) centers.length j hj, ?_⟩
    intro j hj heq
    by_cases hjm : j < minIdxBy (fun i => |centers.getD i 0 - q|) centers.length
    · exact absurd heq
        (ne_of_gt (minIdxBy_first (fun i => |centers.getD i 0 - q|) centers.length j hjm))
    · rcases Nat.lt_or_ge (minIdxBy (fun i => |centers.getD i 0 - q|) centers.length) j
        with hmj | hmj
      · have hrel := hsorted.rel_get_of_lt
          (show (⟨minIdxBy (fun i => |centers.getD i 0 - q|) centers.length, hm⟩ :
            Fin centers.length) < ⟨j, hj⟩ from hmj)
        simp only [List.getD_eq_getElem?_getD] at hm
        simpa [List.getD_eq_getElem?_getD, List.getElem?_eq_getElem, hm, hj] using hrel
      · have hje : j = minIdxBy (fun i => |centers.getD i 0 - q|) centers.length := by omega
        rw [hje]
  · decide

/-- C2 witness: instantiated at the sorted centers [1, 2, 3] with query 3/2;
    the selected index is in range and its distance is minimal. -/
theorem nearest_bin_first_minimal_witness :
    nearest_idx [(1:ℚ), 2, 3] (3/2) < 3
    ∧ (∀ j, j < 3 →
        |[(1:ℚ), 2, 3].getD (nearest_idx [(1:ℚ), 2, 3] (3/2)) 0 - 3/2|
          ≤ |[(1:ℚ), 2, 3].getD j 0 - 3/2|) := by
  have h := nearest_bin_first_minimal.1 [(1:ℚ), 2, 3] (3/2) (by decide)
    (by norm_num [List.sorted_cons])
  exact ⟨h.1, h.2.1⟩

/-- C8 counterexample: two turbines, each with two samples ten minutes apart,
    every row at constant power 1000 kW.  The engine computes capacity factor
    1, whereas the claimed value P/(N·2000) would be 1000/4000 = 1/4: with N
    turbines each producing P the farm capacity factor is about P/2000,
    independent of N. -/
theorem capacity_factor_not_P_over_NR :
    capacity_factor [⟨"T1", 0, 1000⟩, ⟨"T1", 600, 1000⟩, ⟨"T2", 0, 1000⟩, ⟨"T2", 600, 1000⟩]
      = some 1
    ∧ (1 : ℚ) ≠ 1000 / ((2 : ℚ) * 2000) := by
  constructor
  · decide
  · norm_num

/-- C8 amended: energy per row is power·(10/60) and capacity_factor is
    total_energy/(installed·span) with installed = n_turbines·2000, exactly as
    claimed; but for constant per-row power P, with each of the N turbines
    contributing the same m ≥ 2 samples at 10-minute cadence (so the span is
    (m−1)/6 hours), the capacity factor equals m·P/(2000·(m−1)) — about
    P/2000 = P/R, not P/(N·2000). -/
theorem capacity_factor_constant_power (rows : List KpiRow) (P : ℚ) (N m : Nat)
    (hP : ∀ r ∈ rows, r.power_kw = P)
    (hlen : rows.length = N * m)
    (hN : n_turbines rows = N) (hN1 : 1 ≤ N) (hm : 2 ≤ m)
    (hspan : time_span_hours rows = ((m : ℚ) - 1) / 6) :
    capacity_factor rows = some ((m : ℚ) * P / (2000 * ((m : ℚ) - 1))) := by
  have hmn : 2 ≤ N * m := le_trans (by omega) (Nat.mul_le_mul hN1 (le_refl m))
  have hne : rows.isEmpty = false := by
    cases rows with
    | nil => rw [List.length_nil] at hlen; omega
    | cons a l => rfl
  have hmap : rows.map energy_kwh = List.replicate rows.length (P * (10/60)) := by
    have := List.eq_replicate_of_mem (a := P * (10/60)) (l := rows.map energy_kwh) ?_
    · rwa [List.length_map] at this
    · intro b hb
      rcases List.mem_map.mp hb with ⟨r, hr, rfl⟩
      simp [energy_kwh, INTERVAL_MIN, hP r hr]
  have htot : total_energy_kwh rows = ((N * m : Nat) : ℚ) * (P * (10/60)) := by
    unfold total_energy_kwh
    rw [hmap, List.sum_replicate, nsmul_eq_mul, hlen]
  have hNQ : ((N : ℚ)) ≠ 0 := by
    have : (1 : ℚ) ≤ (N : ℚ) := by exact_mod_cast hN1
    linarith
  have hmQ : ((m : ℚ)) - 1 ≠ 0 := by
    have : (2 : ℚ) ≤ (m : ℚ) := by exact_mod_cast hm
    linarith
  unfold capacity_factor
  rw [hne]
  simp only [Bool.false_eq_true, if_false, htot, hN, hspan, RATED_POWER_KW]
  congr 1
  push_cast
  field_simp
  ring

/-- C8 amended, witness: two turbines, two 10-minute-spaced samples each, at
    constant power 1000; the capacity factor is 2·1000/(2000·(2−1)) = 1. -/
theorem capacity_factor_constant_power_witness :
    capacity_factor [⟨"T1", 0, 1000⟩, ⟨"T1", 600, 1000⟩, ⟨"T2", 0, 1000⟩, ⟨"T2", 600, 1000⟩]
      = some (((2 : Nat) : ℚ) * 1000 / (2000 * (((2 : Nat) : ℚ) - 1))) := by
  exact capacity_factor_constant_power _ 1000 2 2 (by decide) (by decide) (by decide)
    (by norm_num) (by norm_num)
    (by norm_num [time_span_hours, max_def, min_def])

/- Facts about diffSeries needed for the cold-start claim. -/

theorem diffSeries_length (n : Nat) (xs : List (Option ℚ)) :
    (diffSeries n xs).length = xs.length := by
  simp [diffSeries]

theorem diffSeries_entry_none {n : Nat} {xs : List (Option ℚ)} {i : Nat}
    (h : i < xs.length) (hn : i < n) :
    (diffSeries n xs)[i]? = some none := by
  unfold diffSeries
  rw [List.getElem?_map, List.getElem?_range h]
  simp [Nat.not_le.mpr hn]

/-- C9: a turbine group with fewer than 144 samples has missing (null) 1-day
    slope values at every row (Series.diff(144) against nonexistent rows),
    and consequently its health score applies none of the slope-based
    deductions: the score is exactly the clamped sum of the absolute oil,
    vibration and yaw deductions of the latest row. -/
theorem cold_start_no_slope_deductions :
    (∀ xs : List (Option ℚ), xs.length < WINDOW_1D →
      ∀ i, (diffSeries WINDOW_1D xs).getD i none = none)
    ∧ (∀ g : List CleanRow, g.length < WINDOW_1D →
        ∀ last, (sortByTimestamp g).getLast? = some last →
          latest_health g = some (score_without_slopes last)) := by
  have entry : ∀ (xs : List (Option ℚ)), xs.length < WINDOW_1D →
      ∀ i, (diffSeries WINDOW_1D xs).getD i none = none := by
    intro xs hxs i
    rw [List.getD_eq_getElem?_getD]
    by_cases hi : i < xs.length
    · rw [diffSeries_entry_none hi (lt_trans hi hxs)]
      rfl
    · rw [List.getElem?_eq_none]
      · rfl
      · rw [diffSeries_length]; omega
  refine ⟨entry, ?_⟩
  intro g hg last hlast
  have hs_len : (sortByTimestamp g).length = g.length := List.length_insertionSort _ _
  have hs_pos : 0 < (sortByTimestamp g).length := by
    cases hsort : sortByTimestamp g with
    | nil => rw [hsort] at hlast; simp [List.getLast?] at hlast
    | cons a l => simp [hsort]
  have hslope : ∀ xs : List (Option ℚ), xs.length = (sortByTimestamp g).length →
      (diffSeries WINDOW_1D xs).getLast?.join = none := by
    intro xs hxs
    rw [List.getLast?_eq_getElem?, diffSeries_length,
      diffSeries_entry_none (by omega) (show xs.length - 1 < WINDOW_1D by omega)]
    rfl
  have score_eq : compute_health_score
      { gear_oil_temp_c := last.gear_oil_temp_c, oil_slope := none,
        vibration_g_rms := last.vibration_g_rms, vib_slope := none,
        yaw_misalignment_deg := last.yaw_misalignment_deg } = score_without_slopes last := by
    have hnone : ∀ l : ℚ, optGt none l = false := fun l => rfl
    cases h1 : optGt last.gear_oil_temp_c OIL_ABSOLUTE_LIMIT <;>
    cases h3 : optGt last.vibration_g_rms VIB_ABSOLUTE_LIMIT <;>
    cases h5 : optGt last.yaw_misalignment_deg YAW_LIMIT_HEALTH <;>
    simp [compute_health_score, score_without_slopes, h1, h3, h5, hnone]
  simp only [latest_health, hlast,
    hslope (List.map (fun r => r.gear_oil_temp_c) (sortByTimestamp g)) (by simp),
    hslope (List.map (fun r => r.vibration_g_rms) (sortByTimestamp g)) (by simp),
    score_eq]

/-- C9 witness: a two-sample turbine group; the 1-day slopes are null and the
    score is the clamped no-slope sum of the latest row. -/
theorem cold_start_no_slope_deductions_witness :
    (diffSeries WINDOW_1D [some (80 : ℚ), some 90]).getD 1 none = none
    ∧ latest_health [⟨0, some 90, some 2, some 25⟩, ⟨1, some 90, some 2, some 25⟩]
      = some (score_without_slopes ⟨1, some 90, some 2, some 25⟩) := by
  refine ⟨cold_start_no_slope_deductions.1 _ (by decide) 1,
    cold_start_no_slope_deductions.2 _ (by decide) _ (by decide)⟩

/-- C10: a cleaned reading with no matching underperformance event yields a
    single merged row whose expected_power_kw is backfilled with the row's own
    power_kw and whose underperf_flag is backfilled to false; its diagnosis
    therefore never includes YAW_MISALIGNMENT, and never includes PITCH_STUCK
    when the row's power is non-negative (power < 0.3·power then fails). -/
theorem unmatched_rows_backfilled (s : ScadaRow) (up : List UnderperfRow)
    (hnm : ∀ u ∈ up, matchKey s u = false) :
    mergeRow up s = [(s, none, none)]
    ∧ run_diagnosis [s] up =
        [(fill_row (s, none, none), diagnose_row (fill_row (s, none, none)))]
    ∧ (fill_row (s, none, none)).expected_power_kw = s.power_kw
    ∧ (fill_row (s, none, none)).underperf_flag = false
    ∧ "YAW_MISALIGNMENT" ∉ fault_labels (fill_row (s, none, none))
    ∧ (0 ≤ s.power_kw → "PITCH_STUCK" ∉ fault_labels (fill_row (s, none, none))) := by
  have hfilter : up.filter (matchKey s) = [] :=
    List.filter_eq_nil_iff.mpr (fun u hu => by simp [hnm u hu])
  have hmerge : mergeRow up s = [(s, none, none)] := by
    unfold mergeRow
    rw [hfilter]
  refine ⟨hmerge, ?_, rfl, rfl, ?_, ?_⟩
  · unfold run_diagnosis
    rw [List.map_cons, List.map_nil, hmerge]
    rfl
  · simp only [fault_labels, detect_gearbox_fault, detect_vibration_fault,
      detect_pitch_stuck, detect_yaw_misalignment, detect_grid_event]
    by_cases h1 : GEAR_OIL_TEMP_LIMIT < (fill_row (s, none, none)).gear_oil_temp_c <;>
    by_cases h2 : VIB_HIGH_LIMIT < (fill_row (s, none, none)).vibration_g_rms <;>
    by_cases h3 : (fill_row (s, none, none)).pitch_angle_deg < PITCH_STUCK_ANGLE
        ∧ (fill_row (s, none, none)).power_kw
          < (fill_row (s, none, none)).expected_power_kw * (3/10) <;>
    by_cases h5 : (fill_row (s, none, none)).grid_event ≠ "NA" <;>
    simp_all [fill_row]
  · intro hp
    have hpitch : ¬ ((fill_row (s, none, none)).pitch_angle_deg < PITCH_STUCK_ANGLE
        ∧ (fill_row (s, none, none)).power_kw
          < (fill_row (s, none, none)).expected_power_kw * (3/10)) := by
      rintro ⟨-, habs⟩
      simp only [fill_row, Option.getD_none] at habs
      linarith
    simp only [fault_labels, detect_gearbox_fault, detect_vibration_fault,
      detect_pitch_stuck, detect_yaw_misalignment, detect_grid_event]
    by_cases h1 : GEAR_OIL_TEMP_LIMIT < (fill_row (s, none, none)).gear_oil_temp_c <;>
    by_cases h2 : VIB_HIGH_LIMIT < (fill_row (s, none, none)).vibration_g_rms <;>
    by_cases h5 : (fill_row (s, none, none)).grid_event ≠ "NA" <;>
    simp_all [fill_row]

/-- C10 witness: a reading with no matching event (different key); its single
    merged row is backfilled and its diagnosis carries neither
    YAW_MISALIGNMENT nor PITCH_STUCK. -/
theorem unmatched_rows_backfilled_witness :
    mergeRow [⟨1, "T2", 500, true⟩] ⟨0, "T1", 100, 50, 1, 10, 0, "NA"⟩
      = [(⟨0, "T1", 100, 50, 1, 10, 0, "NA"⟩, none, none)]
    ∧ "YAW_MISALIGNMENT" ∉
        fault_labels (fill_row (⟨0, "T1", 100, 50, 1, 10, 0, "NA"⟩, none, none))
    ∧ "PITCH_STUCK" ∉
        fault_labels (fill_row (⟨0, "T1", 100, 50, 1, 10, 0, "NA"⟩, none, none)) := by
  have h := unmatched_rows_backfilled ⟨0, "T1", 100, 50, 1, 10, 0, "NA"⟩
    [⟨1, "T2", 500, true⟩] (by decide)
  exact ⟨h.1, h.2.2.2.2.1, h.2.2.2.2.2 (by norm_num)⟩

end WindFarm
